import Mathlib

/-!
Shallow embedding of `buildbot-config/builds.py`: the build/scheduler
topology generator of the dockerized-bb repository.

The Python module declares, for each project (a `StandardBuild` subclass
instance), the schedulers and builder configurations handed to buildbot,
together with the lock annotations on builders and steps.  We embed the
generator as pure Lean functions producing values of inductive types that
record exactly the fields the generator sets.  Opaque collaborators
(the `scummsteps` step classes, `platforms` catalog entries, the buildbot
runtime) are represented by constructors or by function-valued fields of
`Platform`; fields the generator never branches on (environment
dictionaries, `hideStepIf`/`doStepIf` callables) are not modelled.
-/

namespace DockerizedBB

/-- Identity of a lock object created by the module: the single global
`lock_build = util.WorkerLock("worker", ...)` and, per project, the
`util.MasterLock("src-{name}", maxCount=sys.maxsize)` stored in
`self.lock_src`. -/
inductive LockId where
  | workerLock
  | srcLock (project : String)
deriving DecidableEq, Repr

/-- Buildbot lock access mode, as passed to `lock.access(mode)`. -/
inductive LockMode where
  | exclusive
  | counting
deriving DecidableEq, Repr

/-- The result of `lock.access(mode)`: a lock together with the mode the
holder requests. -/
structure LockAccess where
  lock : LockId
  mode : LockMode
deriving DecidableEq, Repr

/-- `util.WorkerLock` data: name, default count cap, and the per-worker
cap table. -/
structure WorkerLock where
  name : String
  maxCount : Nat
  maxCountForWorker : List (String × Nat)
deriving DecidableEq, Repr

/-- `getattr(config, 'max_parallel_builds', 1)`: the configured builder
parallelism cap, defaulting to 1 when config does not set it. -/
def max_parallel_builds (cfg : Option Nat) : Nat :=
  cfg.getD 1

/-- `lock_build`: the single worker lock shared by every builder, with a
cap of 1 for the `fetcher` worker and the configured parallelism limit
for the `builder` worker (builds.py lines 22-26). -/
def lock_build (cfg : Option Nat) : WorkerLock :=
  { name := "worker"
    maxCount := 1
    maxCountForWorker := [("fetcher", 1), ("builder", max_parallel_builds cfg)] }

/-- `max_jobs = getattr(config, 'max_jobs', None) or (cpu_count() + 1)`:
Python `or` falls through on `None` and on `0`. -/
def max_jobs (cfg : Option Nat) (cpu_count : Nat) : Nat :=
  match cfg with
  | some n => if n = 0 then cpu_count + 1 else n
  | none => cpu_count + 1

/-- A value given for a property in `set_properties` of a Trigger step:
either a renderable `util.Property(name, defaultWhenFalse=...)` or a
literal boolean. -/
inductive PropValue where
  | renderProp (name : String) (defaultWhenFalse : Bool)
  | boolVal (b : Bool)
deriving DecidableEq, Repr

/-- The steps the generator adds to build factories.  Constructors mirror
the step classes used in builds.py; `packageSteps` stands for the whole
list returned by `scummsteps.get_package_steps` (manifest assembly,
archive, publish), recording the arguments the generator passes. -/
inductive Step where
  | git (repourl : String) (branch : String) (locks : List LockAccess)
  | patch (patches : List String) (locks : List LockAccess)
  | trigger (name : String) (schedulerNames : List String)
      (set_properties : List (String × PropValue))
      (updateSourceStamp : Option Bool) (waitForFinish : Bool)
  | clean (dir : String)
  | setPropertyIfOlder (name : String) (src : String) (generated : String)
      (property : String)
  | configure (command : List String)
  | compile (command : List String)
  | test (command : Option (List String))
  | strip (command : String)
  | packageSteps (buildname : String) (platformname : String)
      (archive_format : String) (disttarget : Option String)
      (build_data_files : List String) (platform_data_files : List String)
      (platform_built_files : List String)
deriving DecidableEq, Repr

/-- Steps that write the project's source tree: the Git update and the
patch application. -/
def Step.isSourceMutating : Step → Bool
  | Step.git _ _ _ => true
  | Step.patch _ _ => true
  | _ => false

/-- The `locks` argument attached to a step (only the source-mutating
steps carry one in builds.py). -/
def Step.stepLocks : Step → List LockAccess
  | Step.git _ _ l => l
  | Step.patch _ l => l
  | _ => []

/-- Test steps (`steps.Test`, with or without an overriding command). -/
def Step.isTest : Step → Bool
  | Step.test _ => true
  | _ => false

/-- Strip steps (`scummsteps.Strip`). -/
def Step.isStrip : Step → Bool
  | Step.strip _ => true
  | _ => false

/-- The generic packaging sequence marker. -/
def Step.isPackage : Step → Bool
  | Step.packageSteps _ _ _ _ _ _ _ => true
  | _ => false

/-- Trigger steps. -/
def Step.isTrigger : Step → Bool
  | Step.trigger _ _ _ _ _ => true
  | _ => false

/-- `util.ChangeFilter(repository=[...], branch=...)`. -/
structure ChangeFilter where
  repository : List String
  branch : String
deriving DecidableEq, Repr

/-- The two attributes of an incoming change that the filter inspects. -/
structure Change where
  repository : String
  branch : String

/-- Buildbot semantics of `ChangeFilter(repository=[...], branch=...)`:
the change's repository must be one of the listed aliases and its branch
must equal the configured branch. -/
def ChangeFilter.matches (cf : ChangeFilter) (c : Change) : Bool :=
  cf.repository.contains c.repository && cf.branch == c.branch

/-- The scheduler kinds instantiated by `getGlobalSchedulers`. -/
inductive Scheduler where
  | singleBranch (name : String) (change_filter : ChangeFilter)
      (treeStableTimer : Nat) (builderNames : List String)
  | nightlyTriggerable (name : String) (branch : String)
      (builderNames : List String) (hour : Nat) (minute : Nat)
      (onlyIfChanged : Bool)
  | triggerable (name : String) (builderNames : List String)
  | force (name : String) (builderNames : List String)
      (properties : List (String × Bool))
deriving DecidableEq, Repr

/-- The name of a scheduler. -/
def Scheduler.name : Scheduler → String
  | Scheduler.singleBranch n _ _ _ => n
  | Scheduler.nightlyTriggerable n _ _ _ _ _ => n
  | Scheduler.triggerable n _ => n
  | Scheduler.force n _ _ => n

/-- The builder names a scheduler may start. -/
def Scheduler.builderNames : Scheduler → List String
  | Scheduler.singleBranch _ _ _ bs => bs
  | Scheduler.nightlyTriggerable _ _ bs _ _ _ => bs
  | Scheduler.triggerable _ bs => bs
  | Scheduler.force _ bs _ => bs

/-- `util.BuilderConfig` fields set by the generator. -/
structure BuilderConfig where
  name : String
  workername : String
  workerbuilddir : String
  steps : List Step
  tags : List String
  locks : List LockAccess
  properties : List (String × String)
deriving DecidableEq, Repr

/-- The data of a `StandardBuild` instance.  `patches` holds the class
attribute `PATCHES` of the concrete class (empty for every concrete class
in builds.py). -/
structure StandardBuild where
  name : String
  baseurl : String
  giturl : String
  branch : String
  nightly : Option (Nat × Nat)
  enable_force : Bool
  description_ : Option String
  patches : List String
deriving DecidableEq, Repr

/-- `StandardBuild.__init__`: when no explicit git URL is given, it
defaults to the base URL with ".git" appended (builds.py lines 66-77);
the source lock `src-{name}` is identified by `LockId.srcLock name`. -/
def mkStandardBuild (patches : List String) (name baseurl branch : String)
    (nightly : Option (Nat × Nat)) (enable_force : Bool)
    (giturl : Option String) (description : Option String) : StandardBuild :=
  { name := name
    baseurl := baseurl
    giturl := giturl.getD (baseurl ++ ".git")
    branch := branch
    nightly := nightly
    enable_force := enable_force
    description_ := description
    patches := patches }

/-- The per-project source lock access `self.lock_src.access(mode)`. -/
def StandardBuild.lock_src_access (self : StandardBuild) (mode : LockMode) :
    LockAccess :=
  ⟨LockId.srcLock self.name, mode⟩

/-- A platform catalog entry, seen through the predicates and accessors
builds.py calls on it.  The callables receive the build object; we pass
the `StandardBuild` data.  (`getEnv` is only threaded through to steps
and never branched on, so it is not modelled.) -/
structure Platform where
  name : String
  archiveext : String
  canBuild : StandardBuild → Bool
  canBuildTests : StandardBuild → Bool
  canRunTests : StandardBuild → Bool
  canPackage : StandardBuild → Bool
  getConfigureArgs : StandardBuild → List String
  getStripCmd : StandardBuild → Option String
  getPackagingCmd : StandardBuild → Option String
  getDataFiles : StandardBuild → List String
  getBuiltFiles : StandardBuild → List String
  getWorkerImage : StandardBuild → String

/-- The change filter built at the top of `getGlobalSchedulers`
(builds.py line 95). -/
def StandardBuild.change_filter (self : StandardBuild) : ChangeFilter :=
  { repository := [self.baseurl, self.giturl], branch := self.branch }

/-- `StandardBuild.getGlobalSchedulers` (builds.py lines 93-140). -/
def StandardBuild.getGlobalSchedulers (self : StandardBuild)
    (platforms : List Platform) : List Scheduler :=
  let comp_builders :=
    (platforms.filter (fun p => p.canBuild self)).map
      (fun p => self.name ++ "-" ++ p.name)
  [Scheduler.singleBranch ("branch-scheduler-" ++ self.name)
      self.change_filter 300 ["fetch-" ++ self.name]]
  ++ (match self.nightly with
      | some hm =>
        [Scheduler.nightlyTriggerable ("nightly-scheduler-" ++ self.name)
          self.branch ["nightly-" ++ self.name] hm.1 hm.2 true]
      | none => [])
  ++ [Scheduler.triggerable ("build-scheduler-" ++ self.name) comp_builders]
  ++ (if self.enable_force then
        [Scheduler.force ("force-scheduler-" ++ self.name ++ "-fetch")
           ["fetch-" ++ self.name] [("clean", false), ("package", false)],
         Scheduler.force ("force-scheduler-" ++ self.name ++ "-build")
           comp_builders [("clean", false), ("package", false)]]
      else [])

/-- The step list of the fetch build factory (builds.py lines 145-172):
source update, conditional patch application, conditional fire-and-forget
nightly trigger, and the awaited fan-out trigger. -/
def StandardBuild.fetchSteps (self : StandardBuild) : List Step :=
  [Step.git self.giturl self.branch [self.lock_src_access LockMode.exclusive]]
  ++ (if self.patches.length ≠ 0 then
        [Step.patch self.patches [self.lock_src_access LockMode.exclusive]]
      else [])
  ++ (match self.nightly with
      | some _ =>
        [Step.trigger "Updating source stamp"
          ["nightly-scheduler-" ++ self.name] [] none false]
      | none => [])
  ++ [Step.trigger "Building all platforms"
        ["build-scheduler-" ++ self.name]
        [("got_revision", PropValue.renderProp "got_revision" false),
         ("clean", PropValue.renderProp "clean" false),
         ("package", PropValue.renderProp "package" false)]
        (some true) true]

/-- The fetch builder configuration (builds.py lines 174-182). -/
def StandardBuild.fetchBuilder (self : StandardBuild) : BuilderConfig :=
  { name := "fetch-" ++ self.name
    workername := "fetcher"
    workerbuilddir := "/data/src/" ++ self.name
    steps := self.fetchSteps
    tags := ["fetch"]
    locks := [⟨LockId.workerLock, LockMode.counting⟩]
    properties := [] }

/-- The nightly builder configuration (builds.py lines 184-204), created
only when a nightly schedule exists. -/
def StandardBuild.nightlyBuilder (self : StandardBuild) : BuilderConfig :=
  { name := "nightly-" ++ self.name
    workername := "fetcher"
    workerbuilddir := "/data/triggers/nightly-" ++ self.name
    steps := [Step.trigger "Building all platforms"
      ["build-scheduler-" ++ self.name]
      [("got_revision", PropValue.renderProp "got_revision" false),
       ("clean", PropValue.boolVal true),
       ("package", PropValue.boolVal true)]
      (some true) true]
    tags := ["nightly"]
    locks := [⟨LockId.workerLock, LockMode.counting⟩]
    properties := [] }

/-- `StandardBuild.getGlobalBuilders` (builds.py lines 142-206): the
fetch builder and, when a nightly schedule exists, the nightly builder. -/
def StandardBuild.getGlobalBuilders (self : StandardBuild) :
    List BuilderConfig :=
  [self.fetchBuilder]
  ++ (match self.nightly with
      | some _ => [self.nightlyBuilder]
      | none => [])

/-- `ScummVMBuild` data: a `StandardBuild` plus the extra constructor
keywords `verbose_build` and `data_files`. -/
structure ScummVMBuild extends StandardBuild where
  verbose_build : Bool
  data_files : List String
deriving DecidableEq, Repr

/-- `ScummVMBuild.PATCHES` (empty). -/
def SCUMMVM_PATCHES : List String := []

/-- `ScummVMBuild.DATA_FILES` (builds.py lines 214-254). -/
def SCUMMVM_DATA_FILES : List String :=
  ["AUTHORS", "COPYING", "COPYING.LGPL", "COPYING.BSD", "COPYRIGHT",
   "NEWS.md", "README.md",
   "gui/themes/translations.dat", "gui/themes/scummclassic.zip",
   "gui/themes/scummmodern.zip", "gui/themes/scummremastered.zip",
   "dists/engine-data/access.dat", "dists/engine-data/cryomni3d.dat",
   "dists/engine-data/drascula.dat", "dists/engine-data/fonts.dat",
   "dists/engine-data/hugo.dat", "dists/engine-data/kyra.dat",
   "dists/engine-data/lure.dat", "dists/engine-data/mort.dat",
   "dists/engine-data/neverhood.dat", "dists/engine-data/queen.tbl",
   "dists/engine-data/sky.cpt", "dists/engine-data/supernova.dat",
   "dists/engine-data/teenagent.dat", "dists/engine-data/titanic.dat",
   "dists/engine-data/tony.dat", "dists/engine-data/toon.dat",
   "dists/engine-data/ultima.dat", "dists/engine-data/wintermute.zip",
   "dists/engine-data/xeen.ccs", "dists/networking/wwwroot.zip",
   "dists/pred.dic",
   "dists/engine-data/cryo.dat", "dists/engine-data/macgui.dat",
   "dists/engine-data/macventure.dat", "dists/engine-data/myst3.dat",
   "dists/engine-data/grim-patch.lab", "dists/engine-data/monkey4-patch.m4b"]

/-- `ScummVMBuild.__init__`: pops `verbose_build` (default false) and
`data_files` (default the class `DATA_FILES`). -/
def mkScummVMBuild (name baseurl branch : String)
    (nightly : Option (Nat × Nat)) (enable_force : Bool)
    (giturl : Option String) (description : Option String)
    (verbose_build : Bool) (data_files : Option (List String)) :
    ScummVMBuild :=
  { toStandardBuild :=
      mkStandardBuild SCUMMVM_PATCHES name baseurl branch nightly
        enable_force giturl description
    verbose_build := verbose_build
    data_files := data_files.getD SCUMMVM_DATA_FILES }

/-- The step list of a ScummVM per-platform build factory
(builds.py lines 282-347), parameterized by the module-level `max_jobs`
value `mj`. -/
def ScummVMBuild.platformSteps (self : ScummVMBuild) (mj : Nat)
    (platform : Platform) : List Step :=
  let src_path := "/data" ++ "/src/" ++ self.name
  let configure_path := src_path ++ "/configure"
  let platform_build_verbosity :=
    if self.verbose_build then "--enable-verbose-build" else ""
  let packaging_cmd := platform.getPackagingCmd self.toStandardBuild
  [Step.clean "",
   Step.setPropertyIfOlder "check config.mk freshness" configure_path
     "config.mk" "do_configure",
   Step.configure ([configure_path, "--enable-all-engines",
       "--disable-engine=testbed", platform_build_verbosity]
     ++ platform.getConfigureArgs self.toStandardBuild),
   Step.compile ["make", "-j" ++ toString mj]]
  ++ (if platform.canBuildTests self.toStandardBuild then
        if platform.canRunTests self.toStandardBuild then
          [Step.test none]
        else
          [Step.test (some ["make", "test/runner"])]
      else [])
  ++ (match packaging_cmd with
      | some _ => []
      | none =>
        match platform.getStripCmd self.toStandardBuild with
        | some c => [Step.strip c]
        | none => [])
  ++ (if platform.canPackage self.toStandardBuild then
        [Step.packageSteps self.name platform.name platform.archiveext
          packaging_cmd self.data_files
          (platform.getDataFiles self.toStandardBuild)
          (platform.getBuiltFiles self.toStandardBuild)]
      else [])

/-- The builder configuration for one ScummVM project×platform pair
(builds.py lines 349-360). -/
def ScummVMBuild.platformBuilder (self : ScummVMBuild) (mj : Nat)
    (platform : Platform) : BuilderConfig :=
  { name := self.name ++ "-" ++ platform.name
    workername := "builder"
    workerbuilddir := "/data" ++ "/builds/" ++ platform.name ++ "/" ++ self.name
    steps := self.platformSteps mj platform
    tags := [self.name]
    locks := [⟨LockId.workerLock, LockMode.counting⟩,
              self.toStandardBuild.lock_src_access LockMode.counting]
    properties := [("platformname", platform.name),
                   ("workerimage", platform.getWorkerImage self.toStandardBuild)] }

/-- `ScummVMBuild.getPerPlatformBuilders` (builds.py lines 266-360). -/
def ScummVMBuild.getPerPlatformBuilders (self : ScummVMBuild) (mj : Nat)
    (platform : Platform) : List BuilderConfig :=
  if ¬ platform.canBuild self.toStandardBuild then []
  else [self.platformBuilder mj platform]

/-- `ScummVMStableBuild.DATA_FILES` (builds.py lines 366-399): the list
without the six "not in stable" entries. -/
def SCUMMVM_STABLE_DATA_FILES : List String :=
  ["AUTHORS", "COPYING", "COPYING.LGPL", "COPYING.BSD", "COPYRIGHT",
   "NEWS.md", "README.md",
   "gui/themes/translations.dat", "gui/themes/scummclassic.zip",
   "gui/themes/scummmodern.zip", "gui/themes/scummremastered.zip",
   "dists/engine-data/access.dat", "dists/engine-data/cryomni3d.dat",
   "dists/engine-data/drascula.dat", "dists/engine-data/fonts.dat",
   "dists/engine-data/hugo.dat", "dists/engine-data/kyra.dat",
   "dists/engine-data/lure.dat", "dists/engine-data/mort.dat",
   "dists/engine-data/neverhood.dat", "dists/engine-data/queen.tbl",
   "dists/engine-data/sky.cpt", "dists/engine-data/supernova.dat",
   "dists/engine-data/teenagent.dat", "dists/engine-data/titanic.dat",
   "dists/engine-data/tony.dat", "dists/engine-data/toon.dat",
   "dists/engine-data/ultima.dat", "dists/engine-data/wintermute.zip",
   "dists/engine-data/xeen.ccs", "dists/networking/wwwroot.zip",
   "dists/pred.dic"]

/-- `ScummVMStableBuild(...)`: same constructor as `ScummVMBuild` with
the stable `DATA_FILES` default (and empty `PATCHES`). -/
def mkScummVMStableBuild (name baseurl branch : String)
    (nightly : Option (Nat × Nat)) (enable_force : Bool)
    (giturl : Option String) (description : Option String)
    (verbose_build : Bool) (data_files : Option (List String)) :
    ScummVMBuild :=
  { toStandardBuild :=
      mkStandardBuild SCUMMVM_PATCHES name baseurl branch nightly
        enable_force giturl description
    verbose_build := verbose_build
    data_files := data_files.getD SCUMMVM_STABLE_DATA_FILES }

/-- `ScummVMToolsBuild` data. -/
structure ScummVMToolsBuild extends StandardBuild where
  verbose_build : Bool
  data_files : List String
deriving DecidableEq, Repr

/-- `ScummVMToolsBuild.DATA_FILES` (builds.py lines 407-413). -/
def TOOLS_DATA_FILES : List String :=
  ["COPYING", "NEWS", "README", "convert_dxa.sh", "convert_dxa.bat"]

/-- `ScummVMToolsBuild.__init__`. -/
def mkScummVMToolsBuild (name baseurl branch : String)
    (nightly : Option (Nat × Nat)) (enable_force : Bool)
    (giturl : Option String) (description : Option String)
    (verbose_build : Bool) (data_files : Option (List String)) :
    ScummVMToolsBuild :=
  { toStandardBuild :=
      mkStandardBuild [] name baseurl branch nightly enable_force giturl
        description
    verbose_build := verbose_build
    data_files := data_files.getD TOOLS_DATA_FILES }

/-- The step list of a tools per-platform build factory (builds.py lines
442-497): like the ScummVM one but with a plain configure command and no
test step ("No tests"). -/
def ScummVMToolsBuild.platformSteps (self : ScummVMToolsBuild) (mj : Nat)
    (platform : Platform) : List Step :=
  let src_path := "/data" ++ "/src/" ++ self.name
  let configure_path := src_path ++ "/configure"
  let platform_build_verbosity :=
    if self.verbose_build then "--enable-verbose-build" else ""
  let packaging_cmd := platform.getPackagingCmd self.toStandardBuild
  [Step.clean "",
   Step.setPropertyIfOlder "check config.mk freshness" configure_path
     "config.mk" "do_configure",
   Step.configure ([configure_path, platform_build_verbosity]
     ++ platform.getConfigureArgs self.toStandardBuild),
   Step.compile ["make", "-j" ++ toString mj]]
  ++ (match packaging_cmd with
      | some _ => []
      | none =>
        match platform.getStripCmd self.toStandardBuild with
        | some c => [Step.strip c]
        | none => [])
  ++ (if platform.canPackage self.toStandardBuild then
        [Step.packageSteps self.name platform.name platform.archiveext
          packaging_cmd self.data_files
          (platform.getDataFiles self.toStandardBuild)
          (platform.getBuiltFiles self.toStandardBuild)]
      else [])

/-- The builder configuration for one tools project×platform pair
(builds.py lines 499-510). -/
def ScummVMToolsBuild.platformBuilder (self : ScummVMToolsBuild) (mj : Nat)
    (platform : Platform) : BuilderConfig :=
  { name := self.name ++ "-" ++ platform.name
    workername := "builder"
    workerbuilddir := "/data" ++ "/builds/" ++ platform.name ++ "/" ++ self.name
    steps := self.platformSteps mj platform
    tags := [self.name]
    locks := [⟨LockId.workerLock, LockMode.counting⟩,
              self.toStandardBuild.lock_src_access LockMode.counting]
    properties := [("platformname", platform.name),
                   ("workerimage", platform.getWorkerImage self.toStandardBuild)] }

/-- `ScummVMToolsBuild.getPerPlatformBuilders` (builds.py lines 425-510). -/
def ScummVMToolsBuild.getPerPlatformBuilders (self : ScummVMToolsBuild)
    (mj : Nat) (platform : Platform) : List BuilderConfig :=
  if ¬ platform.canBuild self.toStandardBuild then []
  else [self.platformBuilder mj platform]

/-- The `builds` list entry
`ScummVMBuild("master", "https://github.com/scummvm/scummvm", "master",
verbose_build=True, nightly=(4, 1), description="ScummVM latest")`. -/
def master_build : ScummVMBuild :=
  mkScummVMBuild "master" "https://github.com/scummvm/scummvm" "master"
    (some (4, 1)) true none (some "ScummVM latest") true none

/-- The `builds` list entry for the stable branch. -/
def stable_build : ScummVMBuild :=
  mkScummVMStableBuild "stable" "https://github.com/scummvm/scummvm"
    "branch-2-2" (some (4, 1)) true none (some "ScummVM stable") true none

/-- The `builds` list entry for the tools. -/
def tools_master_build : ScummVMToolsBuild :=
  mkScummVMToolsBuild "tools-master"
    "https://github.com/scummvm/scummvm-tools" "master" (some (4, 1)) true
    none (some "ScummVM tools") true none

/-- A sample catalog entry in the shape of the repository's linux
platform: can build, build tests, run tests and package, no direct
packaging command, no strip command. -/
def linux_platform : Platform :=
  { name := "linux"
    archiveext := "tar.xz"
    canBuild := fun _ => true
    canBuildTests := fun _ => true
    canRunTests := fun _ => true
    canPackage := fun _ => true
    getConfigureArgs := fun _ => []
    getStripCmd := fun _ => none
    getPackagingCmd := fun _ => none
    getDataFiles := fun _ => []
    getBuiltFiles := fun _ => []
    getWorkerImage := fun _ => "debian-x86_64" }

/-- A sample cross-compiling catalog entry: tests can be built but not
run, binaries are stripped by a cross toolchain. -/
def windows_platform : Platform :=
  { linux_platform with
    name := "windows"
    archiveext := "zip"
    canRunTests := fun _ => false
    getStripCmd := fun _ => some "x86_64-w64-mingw32-strip" }

/-- A sample catalog entry that cannot build anything for any project. -/
def disabled_platform : Platform :=
  { linux_platform with
    name := "disabled"
    canBuild := fun _ => false }

/-- A sample catalog entry with a direct packaging command and a strip
command. -/
def dist_platform : Platform :=
  { linux_platform with
    name := "dist"
    getStripCmd := fun _ => some "strip"
    getPackagingCmd := fun _ => some "iphonebundle" }

/-- Every step of the fetch factory that mutates the source tree carries
exactly the project's source lock in exclusive mode. -/
theorem fetchSteps_mutating_locks (sb : StandardBuild) :
    ∀ s ∈ sb.fetchSteps, s.isSourceMutating = true →
      s.stepLocks = [sb.lock_src_access LockMode.exclusive] := by
  intro s hs hmut
  unfold StandardBuild.fetchSteps at hs
  simp only [List.mem_append] at hs
  rcases hs with ((h | h) | h) | h
  · simp only [List.mem_singleton] at h
    subst h
    rfl
  · by_cases hp : sb.patches.length ≠ 0
    · rw [if_pos hp] at h
      simp only [List.mem_singleton] at h
      subst h
      rfl
    · rw [if_neg hp] at h
      exact absurd h (List.not_mem_nil s)
  · rcases hn : sb.nightly with _ | hm <;> rw [hn] at h
    · exact absurd h (List.not_mem_nil s)
    · simp only [List.mem_singleton] at h
      subst h
      simp [Step.isSourceMutating] at hmut
  · simp only [List.mem_singleton] at h
    subst h
    simp [Step.isSourceMutating] at hmut

/-- Membership in `getGlobalBuilders` means the fetch builder or, when a
nightly schedule exists, the nightly builder. -/
theorem mem_getGlobalBuilders (sb : StandardBuild) (bc : BuilderConfig)
    (h : bc ∈ sb.getGlobalBuilders) :
    bc = sb.fetchBuilder ∨ (sb.nightly.isSome ∧ bc = sb.nightlyBuilder) := by
  unfold StandardBuild.getGlobalBuilders at h
  cases hn : sb.nightly <;> simp [hn] at h <;> tauto

/-- C1: in the fetch target every source-mutating step (the Git update
and the patch step) is declared with the project's source lock in
exclusive mode, and every per-platform builder of the same project is
declared with that source lock in counting mode. -/
theorem src_lock_exclusive_fetch_counting_builds (sb : StandardBuild)
    (b : ScummVMBuild) (tb : ScummVMToolsBuild) (mj mj2 : Nat)
    (p q : Platform) :
    (∀ bc ∈ sb.getGlobalBuilders, ∀ s ∈ bc.steps, s.isSourceMutating = true →
        s.stepLocks = [sb.lock_src_access LockMode.exclusive])
    ∧ (∀ bc ∈ b.getPerPlatformBuilders mj p,
        b.toStandardBuild.lock_src_access LockMode.counting ∈ bc.locks)
    ∧ (∀ bc ∈ tb.getPerPlatformBuilders mj2 q,
        tb.toStandardBuild.lock_src_access LockMode.counting ∈ bc.locks) := by
  refine ⟨?_, ?_, ?_⟩
  · intro bc hbc s hs hmut
    rcases mem_getGlobalBuilders sb bc hbc with h | ⟨_, h⟩ <;> subst h
    · exact fetchSteps_mutating_locks sb s hs hmut
    · simp [StandardBuild.nightlyBuilder] at hs
      subst hs
      simp [Step.isSourceMutating] at hmut
  · intro bc hbc
    by_cases hb : p.canBuild b.toStandardBuild = true <;>
      simp [ScummVMBuild.getPerPlatformBuilders, hb] at hbc
    subst hbc
    simp [ScummVMBuild.platformBuilder]
  · intro bc hbc
    by_cases hb : q.canBuild tb.toStandardBuild = true <;>
      simp [ScummVMToolsBuild.getPerPlatformBuilders, hb] at hbc
    subst hbc
    simp [ScummVMToolsBuild.platformBuilder]

/-- C3: the fetch target's action list is, in order, the source update
(under the exclusive source lock), the patch step exactly when patches
exist (same lock), a non-waiting trigger of the nightly scheduler exactly
when a schedule policy exists, and finally a trigger of the build fan-out
scheduler that waits for completion and forwards the resolved revision
and the clean/package properties. -/
theorem fetch_target_action_list (sb : StandardBuild) :
    sb.fetchBuilder ∈ sb.getGlobalBuilders
    ∧ sb.fetchBuilder.name = "fetch-" ++ sb.name
    ∧ sb.fetchBuilder.steps =
        [Step.git sb.giturl sb.branch [sb.lock_src_access LockMode.exclusive]]
        ++ (if sb.patches ≠ [] then
              [Step.patch sb.patches [sb.lock_src_access LockMode.exclusive]]
            else [])
        ++ (if sb.nightly.isSome then
              [Step.trigger "Updating source stamp"
                ["nightly-scheduler-" ++ sb.name] [] none false]
            else [])
        ++ [Step.trigger "Building all platforms"
              ["build-scheduler-" ++ sb.name]
              [("got_revision", PropValue.renderProp "got_revision" false),
               ("clean", PropValue.renderProp "clean" false),
               ("package", PropValue.renderProp "package" false)]
              (some true) true] := by
  refine ⟨?_, rfl, ?_⟩
  · unfold StandardBuild.getGlobalBuilders
    cases hn : sb.nightly <;> simp [hn]
  · show sb.fetchSteps = _
    unfold StandardBuild.fetchSteps
    cases hn : sb.nightly <;> by_cases hp : sb.patches = [] <;>
      simp [hn, hp, List.length_eq_zero]

/-- C5: the global worker lock caps the fetcher class at 1 and the
builder class at the configured parallelism limit, and every generated
builder (fetch, nightly, per-platform) is declared with a counting access
to it. -/
theorem worker_class_lock_caps (cfg : Option Nat) (sb : StandardBuild)
    (b : ScummVMBuild) (tb : ScummVMToolsBuild) (mj mj2 : Nat)
    (p q : Platform) :
    ((lock_build cfg).maxCountForWorker.lookup "fetcher" = some 1
    ∧ (lock_build cfg).maxCountForWorker.lookup "builder"
        = some (max_parallel_builds cfg))
    ∧ (∀ bc ∈ sb.getGlobalBuilders,
        (⟨LockId.workerLock, LockMode.counting⟩ : LockAccess) ∈ bc.locks)
    ∧ (∀ bc ∈ b.getPerPlatformBuilders mj p,
        (⟨LockId.workerLock, LockMode.counting⟩ : LockAccess) ∈ bc.locks)
    ∧ (∀ bc ∈ tb.getPerPlatformBuilders mj2 q,
        (⟨LockId.workerLock, LockMode.counting⟩ : LockAccess) ∈ bc.locks) := by
  refine ⟨⟨?_, ?_⟩, ?_, ?_, ?_⟩
  · rfl
  · rfl
  · intro bc hbc
    rcases mem_getGlobalBuilders sb bc hbc with h | ⟨_, h⟩ <;> subst h <;>
      simp [StandardBuild.fetchBuilder, StandardBuild.nightlyBuilder]
  · intro bc hbc
    by_cases hb : p.canBuild b.toStandardBuild = true <;>
      simp [ScummVMBuild.getPerPlatformBuilders, hb] at hbc
    subst hbc
    simp [ScummVMBuild.platformBuilder]
  · intro bc hbc
    by_cases hb : q.canBuild tb.toStandardBuild = true <;>
      simp [ScummVMToolsBuild.getPerPlatformBuilders, hb] at hbc
    subst hbc
    simp [ScummVMToolsBuild.platformBuilder]

/-- C9: with no eligible platform, the branch scheduler, the (empty)
fan-out scheduler and the fetch builder are still generated, and no
per-platform builder exists for a platform that cannot build the
project. -/
theorem no_eligible_platforms (b : ScummVMBuild) (platforms : List Platform)
    (mj : Nat) (he : ∀ p ∈ platforms, p.canBuild b.toStandardBuild = false) :
    Scheduler.singleBranch ("branch-scheduler-" ++ b.name)
        b.toStandardBuild.change_filter 300 ["fetch-" ++ b.name]
      ∈ b.toStandardBuild.getGlobalSchedulers platforms
    ∧ Scheduler.triggerable ("build-scheduler-" ++ b.name) []
      ∈ b.toStandardBuild.getGlobalSchedulers platforms
    ∧ b.toStandardBuild.fetchBuilder ∈ b.toStandardBuild.getGlobalBuilders
    ∧ b.toStandardBuild.fetchBuilder.name = "fetch-" ++ b.name
    ∧ ∀ p : Platform, p.canBuild b.toStandardBuild = false →
        b.getPerPlatformBuilders mj p = [] := by
  have hfilter :
      platforms.filter (fun p => p.canBuild b.toStandardBuild) = [] := by
    rw [List.filter_eq_nil_iff]
    intro p hp
    simp [he p hp]
  refine ⟨?_, ?_, ?_, rfl, ?_⟩
  · unfold StandardBuild.getGlobalSchedulers
    simp
  · unfold StandardBuild.getGlobalSchedulers
    rw [hfilter]
    cases hn : b.toStandardBuild.nightly <;>
      by_cases hf : b.toStandardBuild.enable_force <;> simp [hn, hf]
  · unfold StandardBuild.getGlobalBuilders
    cases hn : b.toStandardBuild.nightly <;> simp [hn]
  · intro p hp
    simp [ScummVMBuild.getPerPlatformBuilders, hp]

/-- C10: a project constructed without an explicit git URL gets the base
URL with ".git" appended, and its change filter matches a change exactly
when the change's repository is the base URL or the git URL and its
branch is the project's branch. -/
theorem giturl_default_and_change_filter (patches : List String)
    (pname baseurl branch : String) (nightly : Option (Nat × Nat))
    (enable_force : Bool) (description : Option String)
    (platforms : List Platform) (c : Change) :
    (mkStandardBuild patches pname baseurl branch nightly enable_force none
        description).giturl = baseurl ++ ".git"
    ∧ Scheduler.singleBranch ("branch-scheduler-" ++ pname)
        (mkStandardBuild patches pname baseurl branch nightly enable_force
          none description).change_filter 300 ["fetch-" ++ pname]
      ∈ (mkStandardBuild patches pname baseurl branch nightly enable_force
          none description).getGlobalSchedulers platforms
    ∧ ((mkStandardBuild patches pname baseurl branch nightly enable_force
          none description).change_filter.matches c = true
        ↔ (c.repository = baseurl ∨ c.repository = baseurl ++ ".git")
          ∧ c.branch = branch) := by
  refine ⟨rfl, ?_, ?_⟩
  · unfold StandardBuild.getGlobalSchedulers
    cases nightly <;> simp [mkStandardBuild]
  · simp only [ChangeFilter.matches, StandardBuild.change_filter,
      mkStandardBuild, Option.getD_none, Bool.and_eq_true, List.elem_iff,
      List.mem_cons, List.not_mem_nil, or_false, beq_iff_eq]
    constructor
    · rintro ⟨hrepo, hbr⟩
      exact ⟨hrepo, hbr.symm⟩
    · rintro ⟨hrepo, hbr⟩
      exact ⟨hrepo, hbr.symm⟩

/-- C2: a project with a nightly schedule, manual triggering enabled and
a non-empty eligible platform set generates exactly the branch, nightly
and build scheduler names plus the two force scheduler names, and the
build-target names fetch-{project}, nightly-{project} and
{project}-{platform} for each eligible platform. -/
theorem generated_names (b : ScummVMBuild) (platforms : List Platform)
    (mj : Nat) (hm : Nat × Nat)
    (hn : b.toStandardBuild.nightly = some hm)
    (hf : b.toStandardBuild.enable_force = true)
    (hne : platforms.filter (fun p => p.canBuild b.toStandardBuild) ≠ []) :
    (b.toStandardBuild.getGlobalSchedulers platforms).map Scheduler.name =
      ["branch-scheduler-" ++ b.name, "nightly-scheduler-" ++ b.name,
       "build-scheduler-" ++ b.name,
       "force-scheduler-" ++ b.name ++ "-fetch",
       "force-scheduler-" ++ b.name ++ "-build"]
    ∧ (b.toStandardBuild.getGlobalBuilders).map BuilderConfig.name =
        ["fetch-" ++ b.name, "nightly-" ++ b.name]
    ∧ ((platforms.map (fun p => b.getPerPlatformBuilders mj p)).join).map
        BuilderConfig.name =
      (platforms.filter (fun p => p.canBuild b.toStandardBuild)).map
        (fun p => b.name ++ "-" ++ p.name) := by
  clear hne
  refine ⟨?_, ?_, ?_⟩
  · simp [StandardBuild.getGlobalSchedulers, hn, hf, Scheduler.name]
  · simp [StandardBuild.getGlobalBuilders, hn, StandardBuild.fetchBuilder,
      StandardBuild.nightlyBuilder]
  · induction platforms with
    | nil => simp
    | cons p ps ih =>
      have hsplit :
          ((List.map (fun p => b.getPerPlatformBuilders mj p) (p :: ps)).join).map
            BuilderConfig.name =
          ((b.getPerPlatformBuilders mj p).map BuilderConfig.name)
            ++ (((List.map (fun p => b.getPerPlatformBuilders mj p) ps).join).map
              BuilderConfig.name) := by
        simp
      rw [hsplit, ih, List.filter_cons]
      by_cases h : p.canBuild b.toStandardBuild = true
      · simp [ScummVMBuild.getPerPlatformBuilders, h,
          ScummVMBuild.platformBuilder]
      · simp [ScummVMBuild.getPerPlatformBuilders, h]

/-- Witness for C2 at the repository's master build with a two-platform
catalog. -/
theorem generated_names_witness :
    master_build.toStandardBuild.nightly = some (4, 1)
    ∧ master_build.toStandardBuild.enable_force = true
    ∧ [linux_platform, windows_platform].filter
        (fun p => p.canBuild master_build.toStandardBuild) ≠ []
    ∧ ((master_build.toStandardBuild.getGlobalSchedulers
          [linux_platform, windows_platform]).map Scheduler.name =
        ["branch-scheduler-" ++ master_build.name,
         "nightly-scheduler-" ++ master_build.name,
         "build-scheduler-" ++ master_build.name,
         "force-scheduler-" ++ master_build.name ++ "-fetch",
         "force-scheduler-" ++ master_build.name ++ "-build"]
      ∧ (master_build.toStandardBuild.getGlobalBuilders).map
          BuilderConfig.name =
          ["fetch-" ++ master_build.name, "nightly-" ++ master_build.name]
      ∧ (([linux_platform, windows_platform].map
            (fun p => master_build.getPerPlatformBuilders 2 p)).join).map
          BuilderConfig.name =
        ([linux_platform, windows_platform].filter
            (fun p => p.canBuild master_build.toStandardBuild)).map
          (fun p => master_build.name ++ "-" ++ p.name)) := by
  have hne : [linux_platform, windows_platform].filter
      (fun p => p.canBuild master_build.toStandardBuild) ≠ [] := by
    simp [linux_platform, windows_platform]
  exact ⟨rfl, rfl, hne,
    generated_names master_build [linux_platform, windows_platform] 2 (4, 1)
      rfl rfl hne⟩

/-- C4: with a schedule policy the nightly builder runs on the fetcher
worker under the same worker-class lock as the fetch builder, and its
only step triggers the build fan-out scheduler with clean and package
forced true, waiting for completion, mutating no source. -/
theorem nightly_recorder_builder (sb : StandardBuild) (hm : Nat × Nat)
    (hn : sb.nightly = some hm) :
    sb.nightlyBuilder ∈ sb.getGlobalBuilders
    ∧ sb.nightlyBuilder.name = "nightly-" ++ sb.name
    ∧ sb.nightlyBuilder.workername = "fetcher"
    ∧ sb.fetchBuilder.workername = "fetcher"
    ∧ sb.nightlyBuilder.locks = sb.fetchBuilder.locks
    ∧ sb.nightlyBuilder.locks = [⟨LockId.workerLock, LockMode.counting⟩]
    ∧ sb.nightlyBuilder.steps =
        [Step.trigger "Building all platforms"
          ["build-scheduler-" ++ sb.name]
          [("got_revision", PropValue.renderProp "got_revision" false),
           ("clean", PropValue.boolVal true),
           ("package", PropValue.boolVal true)]
          (some true) true]
    ∧ ∀ s ∈ sb.nightlyBuilder.steps, s.isSourceMutating = false := by
  refine ⟨?_, rfl, rfl, rfl, rfl, rfl, rfl, ?_⟩
  · unfold StandardBuild.getGlobalBuilders
    simp [hn]
  · intro s hs
    simp only [StandardBuild.nightlyBuilder, List.mem_singleton] at hs
    subst hs
    rfl

/-- Witness for C4 at the repository's master build. -/
theorem nightly_recorder_builder_witness :
    master_build.toStandardBuild.nightly = some (4, 1)
    ∧ (master_build.toStandardBuild.nightlyBuilder
        ∈ master_build.toStandardBuild.getGlobalBuilders
      ∧ master_build.toStandardBuild.nightlyBuilder.name =
          "nightly-" ++ master_build.name
      ∧ master_build.toStandardBuild.nightlyBuilder.workername = "fetcher"
      ∧ master_build.toStandardBuild.fetchBuilder.workername = "fetcher"
      ∧ master_build.toStandardBuild.nightlyBuilder.locks =
          master_build.toStandardBuild.fetchBuilder.locks
      ∧ master_build.toStandardBuild.nightlyBuilder.locks =
          [⟨LockId.workerLock, LockMode.counting⟩]
      ∧ master_build.toStandardBuild.nightlyBuilder.steps =
          [Step.trigger "Building all platforms"
            ["build-scheduler-" ++ master_build.name]
            [("got_revision", PropValue.renderProp "got_revision" false),
             ("clean", PropValue.boolVal true),
             ("package", PropValue.boolVal true)]
            (some true) true]
      ∧ ∀ s ∈ master_build.toStandardBuild.nightlyBuilder.steps,
          s.isSourceMutating = false) :=
  ⟨rfl, nightly_recorder_builder master_build.toStandardBuild (4, 1) rfl⟩

/-- Witness for C9: a catalog with one platform that cannot build the
master project. -/
theorem no_eligible_platforms_witness :
    disabled_platform.canBuild master_build.toStandardBuild = false
    ∧ (Scheduler.singleBranch ("branch-scheduler-" ++ master_build.name)
          master_build.toStandardBuild.change_filter 300
          ["fetch-" ++ master_build.name]
        ∈ master_build.toStandardBuild.getGlobalSchedulers [disabled_platform]
      ∧ Scheduler.triggerable ("build-scheduler-" ++ master_build.name) []
        ∈ master_build.toStandardBuild.getGlobalSchedulers [disabled_platform]
      ∧ master_build.toStandardBuild.fetchBuilder
        ∈ master_build.toStandardBuild.getGlobalBuilders
      ∧ master_build.toStandardBuild.fetchBuilder.name =
          "fetch-" ++ master_build.name
      ∧ ∀ p : Platform, p.canBuild master_build.toStandardBuild = false →
          master_build.getPerPlatformBuilders 2 p = []) := by
  refine ⟨rfl, no_eligible_platforms master_build [disabled_platform] 2 ?_⟩
  intro p hp
  simp only [List.mem_singleton] at hp
  subst hp
  rfl

/-- C8 (and the body of the spec's strip/package rule): a direct
packaging command suppresses the strip step and is forwarded as the
packaging command of the generic packaging sequence; otherwise a strip
step appears exactly when a strip command exists; and the generic
packaging sequence appears exactly when the platform marks the project
packageable. -/
theorem strip_package_logic (b : ScummVMBuild) (mj : Nat) (p : Platform)
    (hb : p.canBuild b.toStandardBuild = true) :
    ∀ bc ∈ b.getPerPlatformBuilders mj p,
      (bc.steps.filter Step.isStrip =
        (match p.getPackagingCmd b.toStandardBuild with
         | some _ => []
         | none =>
           match p.getStripCmd b.toStandardBuild with
           | some c => [Step.strip c]
           | none => []))
      ∧ (bc.steps.filter Step.isPackage =
          (if p.canPackage b.toStandardBuild then
            [Step.packageSteps b.name p.name p.archiveext
              (p.getPackagingCmd b.toStandardBuild) b.data_files
              (p.getDataFiles b.toStandardBuild)
              (p.getBuiltFiles b.toStandardBuild)]
           else [])) := by
  intro bc hbc
  simp only [ScummVMBuild.getPerPlatformBuilders, hb, not_true_eq_false,
    if_false, List.mem_singleton] at hbc
  subst hbc
  simp only [ScummVMBuild.platformBuilder, ScummVMBuild.platformSteps]
  cases hpc : p.getPackagingCmd b.toStandardBuild <;>
    cases hsc : p.getStripCmd b.toStandardBuild <;>
      by_cases hcp : p.canPackage b.toStandardBuild = true <;>
        by_cases ht : p.canBuildTests b.toStandardBuild = true <;>
          by_cases hr : p.canRunTests b.toStandardBuild = true <;>
            simp [hpc, hsc, hcp, ht, hr, Step.isStrip, Step.isPackage,
              List.filter_append]

/-- Witness for C8 at the master build on a platform with both a direct
packaging command and a strip command. -/
theorem strip_package_logic_witness :
    dist_platform.canBuild master_build.toStandardBuild = true
    ∧ ∀ bc ∈ master_build.getPerPlatformBuilders 2 dist_platform,
        (bc.steps.filter Step.isStrip =
          (match dist_platform.getPackagingCmd master_build.toStandardBuild with
           | some _ => []
           | none =>
             match dist_platform.getStripCmd master_build.toStandardBuild with
             | some c => [Step.strip c]
             | none => []))
        ∧ (bc.steps.filter Step.isPackage =
            (if dist_platform.canPackage master_build.toStandardBuild then
              [Step.packageSteps master_build.name dist_platform.name
                dist_platform.archiveext
                (dist_platform.getPackagingCmd master_build.toStandardBuild)
                master_build.data_files
                (dist_platform.getDataFiles master_build.toStandardBuild)
                (dist_platform.getBuiltFiles master_build.toStandardBuild)]
             else [])) :=
  ⟨rfl, strip_package_logic master_build 2 dist_platform rfl⟩

/-- Counterexample to C7 as stated: the linux-style platform can build
tests for the tools project and the pair is eligible, yet the generated
tools platform target contains no test action. -/
theorem tools_platform_lacks_test_step :
    linux_platform.canBuild tools_master_build.toStandardBuild = true
    ∧ linux_platform.canBuildTests tools_master_build.toStandardBuild = true
    ∧ (tools_master_build.getPerPlatformBuilders 2 linux_platform).map
        (fun bc => bc.steps.filter Step.isTest) = [[]] := by
  refine ⟨rfl, rfl, ?_⟩
  decide

/-- C7 (amended): for ScummVM builds the platform target contains a test
action iff the platform can build tests for the project, executing them
when the platform can run them natively and otherwise only compiling
"make test/runner"; tools platform targets never contain a test
action. -/
theorem test_step_logic (b : ScummVMBuild) (tb : ScummVMToolsBuild)
    (mj mj2 : Nat) (p q : Platform)
    (hb : p.canBuild b.toStandardBuild = true) :
    (∀ bc ∈ b.getPerPlatformBuilders mj p,
      bc.steps.filter Step.isTest =
        (if p.canBuildTests b.toStandardBuild then
          if p.canRunTests b.toStandardBuild then [Step.test none]
          else [Step.test (some ["make", "test/runner"])]
         else []))
    ∧ (∀ bc ∈ tb.getPerPlatformBuilders mj2 q,
        bc.steps.filter Step.isTest = []) := by
  constructor
  · intro bc hbc
    simp only [ScummVMBuild.getPerPlatformBuilders, hb, not_true_eq_false,
      if_false, List.mem_singleton] at hbc
    subst hbc
    simp only [ScummVMBuild.platformBuilder, ScummVMBuild.platformSteps]
    cases hpc : p.getPackagingCmd b.toStandardBuild <;>
      cases hsc : p.getStripCmd b.toStandardBuild <;>
        by_cases hcp : p.canPackage b.toStandardBuild = true <;>
          by_cases ht : p.canBuildTests b.toStandardBuild = true <;>
            by_cases hr : p.canRunTests b.toStandardBuild = true <;>
              simp [hpc, hsc, hcp, ht, hr, Step.isTest, List.filter_append]
  · intro bc hbc
    by_cases hq : q.canBuild tb.toStandardBuild = true
    · simp only [ScummVMToolsBuild.getPerPlatformBuilders, hq,
        not_true_eq_false, if_false, List.mem_singleton] at hbc
      subst hbc
      simp only [ScummVMToolsBuild.platformBuilder,
        ScummVMToolsBuild.platformSteps]
      cases hpc : q.getPackagingCmd tb.toStandardBuild <;>
        cases hsc : q.getStripCmd tb.toStandardBuild <;>
          by_cases hcp : q.canPackage tb.toStandardBuild = true <;>
            simp [hpc, hsc, hcp, Step.isTest, List.filter_append]
    · simp [ScummVMToolsBuild.getPerPlatformBuilders, hq] at hbc

/-- Witness for the amended C7 at the master and tools builds on the
cross-compiling windows-style platform. -/
theorem test_step_logic_witness :
    windows_platform.canBuild master_build.toStandardBuild = true
    ∧ ((∀ bc ∈ master_build.getPerPlatformBuilders 2 windows_platform,
        bc.steps.filter Step.isTest =
          (if windows_platform.canBuildTests master_build.toStandardBuild then
            if windows_platform.canRunTests master_build.toStandardBuild then
              [Step.test none]
            else [Step.test (some ["make", "test/runner"])]
           else []))
      ∧ (∀ bc ∈ tools_master_build.getPerPlatformBuilders 2 windows_platform,
          bc.steps.filter Step.isTest = [])) :=
  ⟨rfl, test_step_logic master_build tools_master_build 2 2 windows_platform
    windows_platform rfl⟩

/-- A second project constructed with the same name "master" as the
repository's first build but a different source location. -/
def dup_build_fork : StandardBuild :=
  mkStandardBuild [] "master" "https://example.org/scummvm-fork" "develop"
    none true none none

/-- C6 evaluated at the failing input: constructing two distinct projects
with the same name succeeds (construction is total and performs no
uniqueness check) and derives colliding fetch-builder, branch-scheduler
and source-lock identifiers. -/
theorem duplicate_name_not_detected :
    master_build.toStandardBuild ≠ dup_build_fork
    ∧ master_build.toStandardBuild.name = dup_build_fork.name
    ∧ master_build.toStandardBuild.fetchBuilder.name =
        dup_build_fork.fetchBuilder.name
    ∧ ((master_build.toStandardBuild.getGlobalSchedulers []).map
        Scheduler.name).head? =
      ((dup_build_fork.getGlobalSchedulers []).map Scheduler.name).head?
    ∧ master_build.toStandardBuild.lock_src_access LockMode.exclusive =
        dup_build_fork.lock_src_access LockMode.exclusive := by
  refine ⟨?_, rfl, rfl, rfl, rfl⟩
  decide

end DockerizedBB
